import Mathlib

/-!
Verification of the streaming log-analysis core (`src/log_analyzer.py`).

Shallow embedding of the detection engine of the repository:
`LogTemplateExtractor.extract_template`, `StreamingLogAnalyzer.calculate_baseline_stats`
/ `_process_record`, `StreamingLogAnalyzer._check_record_for_anomaly`,
`_check_isolation_forest_anomaly`, `detect_anomalies`, and the
`save_baseline_stats` / `load_baseline_stats` persistence pair.

Modelling conventions:
* Python strings are `String` (ASCII payloads; the `\w` word-character class of the
  CPython `re` module is modelled by ASCII alphanumerics plus underscore).
* Python numbers are `ℚ`.  The inputs of every property proved below are exactly
  representable, and all arithmetic the properties touch (subtraction, division,
  comparison) is exact on those inputs, so `ℚ` agrees with IEEE-754 there.
  `np.std`'s square root is modelled by a fixed-precision Newton iteration
  (`ratSqrt`); none of the proved properties depends on its value.
* A JSON log record is a structure holding the five fields the engine reads,
  each `Option`-valued (`none` = field absent); `record.get(f, d)` becomes
  `Option.getD`.  Python truthiness of a string is "non-empty", of a number
  "non-zero".
* The streaming/file layer (`ijson`, `open`) is an I/O boundary: functions are
  embedded over the parsed record list, and the filesystem for persistence is a
  map from path to parsed JSON document.
-/

unseal Rat.sub Rat.add Rat.mul Rat.inv

namespace LogAnalyzer

/-! ## Character classes used by the regular expressions -/

/-- ASCII word character, the `\w` class of CPython's `re` (letters, digits, `_`). -/
def isWordChar (c : Char) : Bool := c.isAlphanum || c = '_'

/-- `\d` for ASCII input. -/
def isDigitChar (c : Char) : Bool := c.isDigit

/-- `[0-9a-f]` under `re.IGNORECASE`, i.e. `[0-9a-fA-F]`. -/
def isHexChar (c : Char) : Bool :=
  c.isDigit || ('a' ≤ c && c ≤ 'f') || ('A' ≤ c && c ≤ 'F')

/-- Truth of `\b` relative to the character to the left (`none` = start of string)
when the character to the right is a word character. -/
def prevIsWord : Option Char → Bool
  | none => false
  | some c => isWordChar c

/-! ## A leftmost, non-overlapping substitution driver (the semantics of `re.sub`)

A matcher receives the character preceding the current position (for `\b`) and the
remaining input, and returns the length of the match at this position, if any.
All matchers below only ever report matches of positive length.  The driver scans
left to right over the *original* string, exactly as `re.sub` does. -/

/-- One `re.sub` pass, fuelled for structural recursion (the fuel is always
sufficient because every reported match has positive length). -/
def reSubAux (m : Option Char → List Char → Option Nat) (repl : List Char) :
    Nat → Option Char → List Char → List Char
  | 0, _, s => s
  | _ + 1, _, [] => []
  | fuel + 1, prev, c :: rest =>
    match m prev (c :: rest) with
    | some (n + 1) =>
        repl ++ reSubAux m repl fuel (some ((c :: rest).getD n c)) (rest.drop n)
    | _ => c :: reSubAux m repl fuel (some c) rest

/-- `re.sub(pattern-as-matcher, repl, s)`. -/
def reSub (m : Option Char → List Char → Option Nat) (repl : List Char)
    (s : List Char) : List Char :=
  reSubAux m repl (s.length + 1) none s

/-! ## The five patterns of `extract_template` -/

/-- Matcher for `\b\d+\b`: a maximal digit run whose neighbours are non-word
characters (or the ends of the string).  Backtracking inside `\d+` can never
rescue a failed right boundary, because any shorter prefix ends before a digit. -/
def matchNum (prev : Option Char) (s : List Char) : Option Nat :=
  if prevIsWord prev then none
  else
    let run := s.takeWhile isDigitChar
    if run.length = 0 then none
    else
      match s.drop run.length with
      | [] => some run.length
      | c :: _ => if isWordChar c then none else some run.length

/-- Consume exactly `n` characters satisfying `p`, returning the rest. -/
def consumeCount (p : Char → Bool) : Nat → List Char → Option (List Char)
  | 0, s => some s
  | _ + 1, [] => none
  | n + 1, c :: rest => if p c then consumeCount p n rest else none

/-- Consume one literal character. -/
def consumeLit (lit : Char) : List Char → Option (List Char)
  | [] => none
  | c :: rest => if c = lit then some rest else none

/-- Matcher for `[0-9a-f]{8}-[0-9a-f]{4}-[0-9a-f]{4}-[0-9a-f]{4}-[0-9a-f]{12}`
(with `re.IGNORECASE`); fixed length 36, no boundary conditions. -/
def matchUUID (_ : Option Char) (s : List Char) : Option Nat := do
  let s ← consumeCount isHexChar 8 s
  let s ← consumeLit '-' s
  let s ← consumeCount isHexChar 4 s
  let s ← consumeLit '-' s
  let s ← consumeCount isHexChar 4 s
  let s ← consumeLit '-' s
  let s ← consumeCount isHexChar 4 s
  let s ← consumeLit '-' s
  let _ ← consumeCount isHexChar 12 s
  return 36

/-- Matcher for `\d{4}-\d{2}-\d{2}T\d{2}:\d{2}:\d{2}`; fixed length 19. -/
def matchTimestamp (_ : Option Char) (s : List Char) : Option Nat := do
  let s ← consumeCount isDigitChar 4 s
  let s ← consumeLit '-' s
  let s ← consumeCount isDigitChar 2 s
  let s ← consumeLit '-' s
  let s ← consumeCount isDigitChar 2 s
  let s ← consumeLit 'T' s
  let s ← consumeCount isDigitChar 2 s
  let s ← consumeLit ':' s
  let s ← consumeCount isDigitChar 2 s
  let s ← consumeLit ':' s
  let _ ← consumeCount isDigitChar 2 s
  return 19

/-- One octet of `\b\d{1,3}\.`…: with greedy `\d{1,3}` followed by a non-digit
token, the only way to match is to consume the entire maximal digit run, which
must have length 1–3 (any shorter prefix is followed by a digit). -/
def consumeOctet (s : List Char) : Option (Nat × List Char) :=
  let run := s.takeWhile isDigitChar
  if 1 ≤ run.length && run.length ≤ 3 then some (run.length, s.drop run.length)
  else none

/-- Matcher for `\b\d{1,3}\.\d{1,3}\.\d{1,3}\.\d{1,3}\b`. -/
def matchIP (prev : Option Char) (s : List Char) : Option Nat :=
  if prevIsWord prev then none
  else do
    let (n1, s) ← consumeOctet s
    let s ← consumeLit '.' s
    let (n2, s) ← consumeOctet s
    let s ← consumeLit '.' s
    let (n3, s) ← consumeOctet s
    let s ← consumeLit '.' s
    let (n4, s) ← consumeOctet s
    match s with
    | [] => return n1 + n2 + n3 + n4 + 3
    | c :: _ => if isWordChar c then none else return n1 + n2 + n3 + n4 + 3

/-- Matcher for `0x[0-9a-fA-F]+` (greedy, no boundaries). -/
def matchHex (_ : Option Char) (s : List Char) : Option Nat :=
  match s with
  | '0' :: 'x' :: rest =>
      let run := rest.takeWhile isHexChar
      if run.length = 0 then none else some (run.length + 2)
  | _ => none

/-- `LogTemplateExtractor.extract_template`: the five `re.sub` passes, in source
order — numbers first, then UUIDs, timestamps, IP addresses and hex literals. -/
def extract_template (message : String) : String :=
  let m := reSub matchNum "{num}".data message.data
  let m := reSub matchUUID "{uuid}".data m
  let m := reSub matchTimestamp "{timestamp}".data m
  let m := reSub matchIP "{ip}".data m
  let m := reSub matchHex "{hex}".data m
  String.mk m

/-! ## Data model -/

/-- A parsed JSON log record, restricted to the five fields the engine reads
(with the default field names `duration_ms` / `message` / `correlation_id`).
`none` models an absent field; `record.get(f, d)` becomes `Option.getD`. -/
structure Rec where
  timestamp : Option String
  level : Option String
  message : Option String
  duration_ms : Option ℚ
  correlation_id : Option String
deriving DecidableEq

/-- The per-template statistics stored in the baseline mapping
(`calculate_baseline_stats` output / `baseline_stats` input). -/
structure BaselineEntry where
  count : ℚ
  mean : ℚ
  std_dev : ℚ
  min : ℚ
  max : ℚ
  p50 : ℚ
  p95 : ℚ
  p99 : ℚ
deriving DecidableEq

/-- A baseline mapping, template string to statistics; a Python `dict` in
insertion order. -/
abbrev Baseline := List (String × BaselineEntry)

/-- Python's `abs` on a rational, in executable form. -/
def ratAbs (q : ℚ) : ℚ := if q < 0 then -q else q

lemma ratAbs_eq_abs (q : ℚ) : ratAbs q = |q| := by
  unfold ratAbs
  rcases lt_or_ge q 0 with h | h
  · simp [h, abs_of_neg h]
  · simp [not_lt.mpr h, abs_of_nonneg h]

/-- `template in baseline_stats` / `baseline_stats[template]`. -/
def lookupBaseline (baseline : Baseline) (t : String) : Option BaselineEntry :=
  match baseline with
  | [] => none
  | (k, e) :: rest => if k = t then some e else lookupBaseline rest t

/-! ## Numeric helpers for the baseline statistics

`np.std` takes a floating-point square root; it is modelled by a bounded,
fixed-precision Newton iteration on `ℚ`.  No proved property depends on the
values produced by these helpers. -/

def listSum (l : List ℚ) : ℚ := l.foldl (· + ·) 0

def listMean (l : List ℚ) : ℚ := listSum l / l.length

def listMin : List ℚ → ℚ
  | [] => 0
  | x :: xs => xs.foldl min x

def listMax : List ℚ → ℚ
  | [] => 0
  | x :: xs => xs.foldl max x

/-- Round to 12 decimal digits, keeping the Newton iterates small. -/
def roundQ (x : ℚ) : ℚ := (Rat.floor (x * 1000000000000) : ℚ) / 1000000000000

def sqrtIter (x : ℚ) : Nat → ℚ → ℚ
  | 0, g => g
  | n + 1, g => sqrtIter x n (roundQ ((g + x / g) / 2))

/-- Approximation of the floating-point square root used by `np.std`. -/
def ratSqrt (x : ℚ) : ℚ := if x ≤ 0 then 0 else sqrtIter x 20 (max 1 x)

/-- Population standard deviation (`np.std`, `ddof = 0`). -/
def listStd (l : List ℚ) : ℚ :=
  ratSqrt (listMean (l.map (fun x => (x - listMean l) ^ 2)))

def insertSorted (x : ℚ) : List ℚ → List ℚ
  | [] => [x]
  | y :: ys => if x ≤ y then x :: y :: ys else y :: insertSorted x ys

def sortRat (l : List ℚ) : List ℚ := l.foldr insertSorted []

/-- `np.percentile` with the default linear-interpolation semantics. -/
def percentile (l : List ℚ) (p : ℚ) : ℚ :=
  match sortRat l with
  | [] => 0
  | s =>
    let rank : ℚ := p / 100 * ((s.length : ℚ) - 1)
    let lo := (Rat.floor rank).toNat
    let hi := (Rat.ceil rank).toNat
    let frac := rank - (Rat.floor rank : ℚ)
    s.getD lo 0 + frac * (s.getD hi 0 - s.getD lo 0)

/-- The statistics dictionary built for one template's duration list. -/
def statsOfDurations (ds : List ℚ) : BaselineEntry :=
  { count := ds.length
    mean := listMean ds
    std_dev := listStd ds
    min := listMin ds
    max := listMax ds
    p50 := percentile ds 50
    p95 := percentile ds 95
    p99 := percentile ds 99 }

/-! ## Baseline builder (`calculate_baseline_stats` / `_process_record`) -/

/-- `defaultdict(list)[t].append(d)`: update the first entry for `t`, or append a
new key at the end (Python dict insertion order). -/
def addDuration (acc : List (String × List ℚ)) (t : String) (d : ℚ) :
    List (String × List ℚ) :=
  match acc with
  | [] => [(t, [d])]
  | (k, ds) :: rest =>
      if k = t then (k, ds ++ [d]) :: rest else (k, ds) :: addDuration rest t d

/-- `defaultdict(int)[t] += 1`. -/
def addCount (acc : List (String × Nat)) (t : String) :
    List (String × Nat) :=
  match acc with
  | [] => [(t, 1)]
  | (k, n) :: rest =>
      if k = t then (k, n + 1) :: rest else (k, n) :: addCount rest t

/-- The two accumulators of `calculate_baseline_stats`
(`template_durations`, `template_counts`). -/
structure BaselineAcc where
  template_durations : List (String × List ℚ)
  template_counts : List (String × Nat)
deriving DecidableEq

/-- `StreamingLogAnalyzer._process_record`: skip the record unless both the
message and the duration are truthy; else append the duration under the
record's template. -/
def process_record (acc : BaselineAcc) (r : Rec) : BaselineAcc :=
  let message := r.message.getD ""
  let duration := r.duration_ms.getD 0
  if message ≠ "" ∧ duration ≠ 0 then
    let template := extract_template message
    { template_durations := addDuration acc.template_durations template duration
      template_counts := addCount acc.template_counts template }
  else acc

/-- The statistics pass at the end of `calculate_baseline_stats`: keep templates
with at least 5 accumulated durations. -/
def buildStats (durs : List (String × List ℚ)) : Baseline :=
  durs.filterMap fun td =>
    if 5 ≤ td.2.length then some (td.1, statsOfDurations td.2) else none

/-- `StreamingLogAnalyzer.calculate_baseline_stats`, over the parsed record
stream (the `ijson`/JSONL file layer is the I/O boundary). -/
def calculate_baseline_stats (records : List Rec) : Baseline :=
  buildStats (records.foldl process_record ⟨[], []⟩).template_durations

/-- The templates present in a baseline mapping (its key set). -/
def baselineTemplates (b : Baseline) : List String := b.map Prod.fst

/-- A record *observes* template `t`: its message is truthy and extracts to `t`.
(`observedTimes t records` counts the records of the corpus with shape `t`.) -/
def observesT (t : String) (r : Rec) : Bool :=
  (r.message.getD "" != "") && (extract_template (r.message.getD "") == t)

def observedTimes (t : String) (records : List Rec) : Nat :=
  records.countP (observesT t)

/-- A record *contributes* to template `t`'s accumulator: message and duration
both truthy, and the message extracts to `t`. -/
def contributesT (t : String) (r : Rec) : Bool :=
  (r.message.getD "" != "") && (r.duration_ms.getD 0 != 0) &&
    (extract_template (r.message.getD "") == t)

/-! ## Anomalies and context (`detect_anomalies` and helpers) -/

inductive AnomalyType where
  | DURATION_SPIKE
  | DURATION_DROP
  | NEW_PATTERN
  | ISOLATION_FOREST_ANOMALY
deriving DecidableEq

inductive Severity where
  | MEDIUM
  | HIGH
deriving DecidableEq

/-- The `context` dictionary attached to a flagged anomaly: exactly one of the
two shapes built by `detect_anomalies`. -/
inductive Context where
  | fullSession (session_id : String) (session_logs : List Rec)
      (anomaly_position : Nat) (session_start session_end : Option String)
      (total_logs_in_session : Nat)
  | windowBased (previous_logs : List Rec) (current_log : Rec)
      (next_logs : List Rec) (position : Nat)
deriving DecidableEq

/-- The anomaly dictionaries built by `_check_record_for_anomaly` and
`_check_isolation_forest_anomaly` (union of their fields; a field an emitting
site does not set is `none`).  The `timestamp` field is `none` when the record
has no timestamp (the source substitutes `datetime.now()`, an I/O boundary). -/
structure Anomaly where
  timestamp : Option String
  level : String
  message : String
  template : String
  duration : ℚ
  expected_mean : Option ℚ
  expected_std : Option ℚ
  z_score : Option ℚ
  anomaly_type : AnomalyType
  severity : Severity
  isolation_score : Option ℚ
  context : Option Context
deriving DecidableEq

/-- `StreamingLogAnalyzer._check_record_for_anomaly`: the Z-score detector. -/
def check_record_for_anomaly (r : Rec) (baseline : Baseline) (threshold : ℚ) :
    Option Anomaly :=
  let message := r.message.getD ""
  let duration := r.duration_ms.getD 0
  let timestamp := r.timestamp
  let level := r.level.getD "INFO"
  if message = "" then none
  else
    let template := extract_template message
    match lookupBaseline baseline template with
    | some stats =>
        if stats.std_dev = 0 then none
        else
          let z := (duration - stats.mean) / stats.std_dev
          if ratAbs z > threshold then
            some { timestamp := timestamp, level := level, message := message,
                   template := template, duration := duration,
                   expected_mean := some stats.mean,
                   expected_std := some stats.std_dev, z_score := some z,
                   anomaly_type := if z > 0 then .DURATION_SPIKE else .DURATION_DROP,
                   severity := if ratAbs z > 5 then .HIGH else .MEDIUM,
                   isolation_score := none, context := none }
          else none
    | none =>
        some { timestamp := timestamp, level := level, message := message,
               template := template, duration := duration,
               expected_mean := none, expected_std := none, z_score := none,
               anomaly_type := .NEW_PATTERN, severity := .MEDIUM,
               isolation_score := none, context := none }

/-- Instrumented mirror of `_check_record_for_anomaly`'s branch structure:
`true` iff control reaches the z-score division with a zero divisor. -/
def zscoreDividesByZero (r : Rec) (baseline : Baseline) : Bool :=
  let message := r.message.getD ""
  if message = "" then false
  else
    match lookupBaseline baseline (extract_template message) with
    | some stats => if stats.std_dev = 0 then false else decide (stats.std_dev = 0)
    | none => false

/-- The trained scikit-learn `IsolationForest` held by an
`IsolationForestAnalyzer`: opaque prediction and scoring functions plus the
`is_trained` flag. -/
structure IsoModel where
  is_trained : Bool
  predictOne : List ℚ → Int
  scoreOne : List ℚ → ℚ

/-- `StreamingLogAnalyzer._check_isolation_forest_anomaly`. -/
def check_isolation_forest_anomaly (r : Rec) (baseline : Baseline)
    (m : IsoModel) : Option Anomaly :=
  let message := r.message.getD ""
  let duration := r.duration_ms.getD 0
  if message = "" then none
  else
    let template := extract_template message
    match lookupBaseline baseline template with
    | some stats =>
        let features := [stats.mean, stats.std_dev, stats.p95, stats.count]
        if m.predictOne features = -1 then
          let score := m.scoreOne features
          some { timestamp := r.timestamp, level := r.level.getD "INFO",
                 message := message, template := template, duration := duration,
                 expected_mean := some stats.mean, expected_std := none,
                 z_score := none, anomaly_type := .ISOLATION_FOREST_ANOMALY,
                 severity := if score < -(1/2 : ℚ) then .HIGH else .MEDIUM,
                 isolation_score := some score, context := none }
        else none
    | none => none

/-- The per-record detector combination inside `detect_anomalies`:
run the Z-score check; when the isolation forest is enabled and trained, run it
too, and use its result only if the Z-score check produced nothing
(`if iso_anomaly and not anomaly: anomaly = iso_anomaly`). -/
def selectAnomaly (baseline : Baseline) (threshold : ℚ) (useIso : Bool)
    (model : Option IsoModel) (r : Rec) : Option Anomaly :=
  let anomaly := check_record_for_anomaly r baseline threshold
  match model with
  | some m =>
      if useIso && m.is_trained then
        match check_isolation_forest_anomaly r baseline m, anomaly with
        | some ia, none => some ia
        | _, _ => anomaly
      else anomaly
  | none => anomaly

/-- Python truthiness of an optional string field. -/
def truthyStr : Option String → Bool
  | none => false
  | some s => s != ""

/-- The first grouping pass of `detect_anomalies`: `session_logs[sid]` is the
ordered list of all records of the stream whose `correlation_id` is `sid`
(only truthy ids are ever looked up). -/
def sessionOf (records : List Rec) (sid : String) : List Rec :=
  records.filter fun r => r.correlation_id == some sid

/-- The bounded trailing context buffer: `deque(maxlen=10)`, as the last up to
10 pushed records. -/
def pushBuffer (buf : List Rec) (r : Rec) : List Rec :=
  let l := buf ++ [r]
  l.drop (l.length - 10)

/-- Attach either the full-session or the window-based context to a flagged
anomaly, as `detect_anomalies` does at position `i` with trailing buffer
`buf`. -/
def attachContext (records : List Rec) (i : Nat) (buf : List Rec) (r : Rec)
    (a : Anomaly) : Anomaly :=
  let sidOpt := r.correlation_id
  match sidOpt with
  | some sid =>
      if sid ≠ "" ∧ sessionOf records sid ≠ [] then
        let sc := sessionOf records sid
        { a with context := some (.fullSession sid sc (sc.indexOf r)
            (sc.head?.bind (·.timestamp)) (sc.getLast?.bind (·.timestamp))
            sc.length) }
      else
        { a with context := some (.windowBased buf r
            ((records.drop (i + 1)).take 10) i) }
  | none =>
      { a with context := some (.windowBased buf r
          ((records.drop (i + 1)).take 10) i) }

/-- The detection loop of `detect_anomalies`: `rest` is the remaining records,
`i` the current absolute position, `buf` the trailing context buffer, which is
updated only after the current record has been evaluated. -/
def detectLoop (records : List Rec) (baseline : Baseline) (threshold : ℚ)
    (useIso : Bool) (model : Option IsoModel) :
    Nat → List Rec → List Rec → List Anomaly
  | _, [], _ => []
  | i, r :: rest, buf =>
    let tail := detectLoop records baseline threshold useIso model
      (i + 1) rest (pushBuffer buf r)
    match selectAnomaly baseline threshold useIso model r with
    | some a => attachContext records i buf r a :: tail
    | none => tail

/-- `StreamingLogAnalyzer.detect_anomalies`, over the parsed record stream.
The JSON-array and JSONL branches of the source run the same two passes over
the same parsed record list; both are represented here. -/
def detect_anomalies (records : List Rec) (baseline : Baseline) (threshold : ℚ)
    (useIso : Bool) (model : Option IsoModel) : List Anomaly :=
  detectLoop records baseline threshold useIso model 0 records []

/-! ## Persistence (`save_baseline_stats` / `load_baseline_stats`)

The textual layer (`json.dump` / `json.load`) is modelled at the parsed-value
level: the filesystem maps a path to the JSON document stored there. -/

inductive Json where
  | null
  | bool (b : Bool)
  | num (q : ℚ)
  | str (s : String)
  | arr (elems : List Json)
  | obj (fields : List (String × Json))

/-- A filesystem: path to stored JSON document (`none` = no such file). -/
abbrev FS := String → Option Json

/-- The JSON object `json.dump` writes for one `BaselineEntry`. -/
def encodeEntry (e : BaselineEntry) : Json :=
  .obj [("count", .num e.count), ("mean", .num e.mean),
        ("std_dev", .num e.std_dev), ("min", .num e.min), ("max", .num e.max),
        ("p50", .num e.p50), ("p95", .num e.p95), ("p99", .num e.p99)]

def encodeBaseline (stats : Baseline) : Json :=
  .obj (stats.map fun te => (te.1, encodeEntry te.2))

def decodeEntry : Json → Option BaselineEntry
  | .obj [("count", .num c), ("mean", .num m), ("std_dev", .num s),
          ("min", .num mn), ("max", .num mx), ("p50", .num a),
          ("p95", .num b), ("p99", .num d)] =>
      some { count := c, mean := m, std_dev := s, min := mn, max := mx,
             p50 := a, p95 := b, p99 := d }
  | _ => none

def decodeFields : List (String × Json) → Option Baseline
  | [] => some []
  | (t, j) :: rest => do
      let e ← decodeEntry j
      let es ← decodeFields rest
      return (t, e) :: es

def decodeBaseline : Json → Option Baseline
  | .obj fields => decodeFields fields
  | _ => none

/-- `save_baseline_stats`: write the JSON serialization of `stats` at `path`. -/
def save_baseline_stats (fs : FS) (path : String) (stats : Baseline) : FS :=
  fun q => if q = path then some (encodeBaseline stats) else fs q

/-- `load_baseline_stats`: a missing file is caught (`FileNotFoundError`) and
yields the empty mapping; `none` models an uncaught `json.load` failure on a
malformed document. -/
def load_baseline_stats (fs : FS) (path : String) : Option Baseline :=
  match fs path with
  | none => some []
  | some j => decodeBaseline j

/-! ## Concrete demonstration values used by the witnesses -/

/-- A one-record stream without session id, for exercising the detector. -/
def demoRec : Rec := ⟨none, none, some "boom", some 5, none⟩

def demoStream : List Rec := [demoRec]

/-- The `NEW_PATTERN` anomaly `detect_anomalies` produces for `demoStream`
against an empty baseline, window context attached. -/
def demoAnomaly : Anomaly :=
  { timestamp := none, level := "INFO", message := "boom", template := "boom",
    duration := 5, expected_mean := none, expected_std := none, z_score := none,
    anomaly_type := .NEW_PATTERN, severity := .MEDIUM, isolation_score := none,
    context := some (.windowBased [] demoRec [] 0) }

/-! ## Accumulator lemmas for the baseline builder -/

/-- The duration list accumulated for template `t` (`[]` when absent). -/
def lookupDur : List (String × List ℚ) → String → List ℚ
  | [], _ => []
  | (k, ds) :: rest, t => if k = t then ds else lookupDur rest t

lemma lookupDur_addDuration_self (acc : List (String × List ℚ)) (t : String)
    (d : ℚ) : lookupDur (addDuration acc t d) t = lookupDur acc t ++ [d] := by
  induction acc with
  | nil => simp [addDuration, lookupDur]
  | cons hd tl ih =>
      by_cases hk : hd.1 = t
      · simp [addDuration, lookupDur, hk]
      · simp [addDuration, lookupDur, hk, ih]

lemma lookupDur_addDuration_ne (acc : List (String × List ℚ)) (t u : String)
    (d : ℚ) (h : u ≠ t) :
    lookupDur (addDuration acc t d) u = lookupDur acc u := by
  induction acc with
  | nil => simp [addDuration, lookupDur, Ne.symm h]
  | cons hd tl ih =>
      by_cases hk : hd.1 = t
      · simp [addDuration, lookupDur, hk, Ne.symm h]
      · simp only [addDuration, if_neg hk, lookupDur]
        by_cases hu : hd.1 = u <;> simp [hu, ih]

lemma keys_addDuration (acc : List (String × List ℚ)) (t : String) (d : ℚ) :
    (addDuration acc t d).map Prod.fst =
      if t ∈ acc.map Prod.fst then acc.map Prod.fst
      else acc.map Prod.fst ++ [t] := by
  induction acc with
  | nil => simp [addDuration]
  | cons hd tl ih =>
      by_cases hk : hd.1 = t
      · simp [addDuration, hk]
      · simp only [addDuration, if_neg hk, List.map_cons, List.mem_cons, ih]
        by_cases hm : t ∈ tl.map Prod.fst <;> simp [hm, Ne.symm hk]

lemma nodup_keys_addDuration (acc : List (String × List ℚ)) (t : String) (d : ℚ)
    (h : (acc.map Prod.fst).Nodup) :
    ((addDuration acc t d).map Prod.fst).Nodup := by
  rw [keys_addDuration]
  by_cases hm : t ∈ acc.map Prod.fst
  · simpa [hm]
  · rw [if_neg hm]
    refine List.nodup_append.mpr ⟨h, List.nodup_singleton t, ?_⟩
    intro a ha hat
    rw [List.mem_singleton] at hat
    exact hm (hat ▸ ha)

/-- Per-record effect of `_process_record` on the accumulated duration count of
a fixed template. -/
lemma lookupDur_process_record (acc : BaselineAcc) (r : Rec) (t : String) :
    (lookupDur (process_record acc r).template_durations t).length =
      (lookupDur acc.template_durations t).length +
        (if contributesT t r then 1 else 0) := by
  unfold process_record
  by_cases hc : r.message.getD "" ≠ "" ∧ r.duration_ms.getD 0 ≠ 0
  · simp only [if_pos hc]
    by_cases ht : extract_template (r.message.getD "") = t
    · have : contributesT t r = true := by
        simp [contributesT, hc.1, hc.2, ht]
      simp [this, ht, lookupDur_addDuration_self]
    · have : contributesT t r = false := by
        simp [contributesT, ht]
      simp [this, lookupDur_addDuration_ne _ _ _ _ fun h2 => ht h2.symm]
  · have : contributesT t r = false := by
      unfold contributesT
      rcases not_and_or.mp hc with h | h <;> simp at h <;> simp [h]
    simp [if_neg hc, this]

lemma nodup_keys_process_record (acc : BaselineAcc) (r : Rec)
    (h : (acc.template_durations.map Prod.fst).Nodup) :
    ((process_record acc r).template_durations.map Prod.fst).Nodup := by
  unfold process_record
  by_cases hc : r.message.getD "" ≠ "" ∧ r.duration_ms.getD 0 ≠ 0
  · simpa [if_pos hc] using nodup_keys_addDuration _ _ _ h
  · simpa [if_neg hc] using h

lemma lookupDur_foldl (records : List Rec) (acc : BaselineAcc) (t : String) :
    (lookupDur (records.foldl process_record acc).template_durations t).length =
      (lookupDur acc.template_durations t).length +
        records.countP (contributesT t) := by
  induction records generalizing acc with
  | nil => simp
  | cons r rs ih =>
      simp only [List.foldl_cons, List.countP_cons, ih,
        lookupDur_process_record]
      omega

lemma nodup_keys_foldl (records : List Rec) (acc : BaselineAcc)
    (h : (acc.template_durations.map Prod.fst).Nodup) :
    (((records.foldl process_record acc).template_durations.map Prod.fst)).Nodup := by
  induction records generalizing acc with
  | nil => simpa
  | cons r rs ih => exact ih _ (nodup_keys_process_record _ _ h)

lemma buildStats_cons (hd : String × List ℚ) (tl : List (String × List ℚ)) :
    buildStats (hd :: tl) =
      if 5 ≤ hd.2.length then (hd.1, statsOfDurations hd.2) :: buildStats tl
      else buildStats tl := by
  by_cases h5 : 5 ≤ hd.2.length <;> simp [buildStats, h5]

lemma buildStats_keys_subset (durs : List (String × List ℚ)) :
    baselineTemplates (buildStats durs) ⊆ durs.map Prod.fst := by
  induction durs with
  | nil =>
      intro a ha
      simp [buildStats, baselineTemplates] at ha
  | cons hd tl ih =>
      intro a ha
      rw [buildStats_cons] at ha
      by_cases h5 : 5 ≤ hd.2.length
      · rw [if_pos h5] at ha
        have ha2 : a = hd.1 ∨ a ∈ baselineTemplates (buildStats tl) := by
          simpa only [baselineTemplates, List.map_cons, List.mem_cons] using ha
        rcases ha2 with h | h
        · simp [h]
        · exact List.mem_cons_of_mem _ (ih h)
      · rw [if_neg h5] at ha
        exact List.mem_cons_of_mem _ (ih ha)

/-- With duplicate-free keys, a template appears in the computed statistics
exactly when its accumulated duration list reached the minimum sample size. -/
lemma mem_buildStats_keys (durs : List (String × List ℚ)) (t : String)
    (hnd : (durs.map Prod.fst).Nodup) :
    t ∈ baselineTemplates (buildStats durs) ↔ 5 ≤ (lookupDur durs t).length := by
  induction durs with
  | nil => simp [buildStats, baselineTemplates, lookupDur]
  | cons hd tl ih =>
      have hnd2 : hd.1 ∉ List.map Prod.fst tl ∧ (List.map Prod.fst tl).Nodup := by
        simpa [List.nodup_cons] using hnd
      rw [buildStats_cons]
      by_cases hk : hd.1 = t
      · have hlk : lookupDur (hd :: tl) t = hd.2 := by simp [lookupDur, hk]
        rw [hlk]
        by_cases h5 : 5 ≤ hd.2.length
        · simp [if_pos h5, baselineTemplates, hk, h5]
        · rw [if_neg h5]
          constructor
          · intro hmem
            exact absurd (hk ▸ buildStats_keys_subset tl hmem) hnd2.1
          · intro h
            exact absurd h h5
      · have hlk : lookupDur (hd :: tl) t = lookupDur tl t := by
          simp [lookupDur, hk]
        rw [hlk]
        by_cases h5 : 5 ≤ hd.2.length
        · rw [if_pos h5]
          have : t ∈ baselineTemplates ((hd.1, statsOfDurations hd.2) :: buildStats tl)
              ↔ t ∈ baselineTemplates (buildStats tl) := by
            simp [baselineTemplates, Ne.symm hk, hk]
          rw [this]
          exact ih hnd2.2
        · rw [if_neg h5]
          exact ih hnd2.2

lemma contributesT_eq_observesT_and (t : String) (r : Rec) :
    contributesT t r = (observesT t r && (r.duration_ms.getD 0 != 0)) := by
  unfold contributesT observesT
  cases h1 : (r.message.getD "" != "") <;>
    cases h2 : (r.duration_ms.getD 0 != 0) <;>
    cases h3 : (extract_template (r.message.getD "") == t) <;> simp [h1, h2, h3]

/-! ## Detection-loop lemmas -/

lemma mem_of_index {l : List Rec} {i : Nat} {r : Rec} (h : l[i]? = some r) :
    r ∈ l := by
  obtain ⟨hlt, hget⟩ := List.getElem?_eq_some_iff.mp h
  exact hget ▸ l.getElem_mem hlt

lemma pushBuffer_length_le (buf : List Rec) (r : Rec)
    (h : buf.length ≤ 10) : (pushBuffer buf r).length ≤ 10 := by
  unfold pushBuffer
  simp only [List.length_drop, List.length_append, List.length_cons,
    List.length_nil]
  omega

lemma mem_pushBuffer (buf : List Rec) (r p : Rec)
    (h : p ∈ pushBuffer buf r) : p ∈ buf ∨ p = r := by
  unfold pushBuffer at h
  have h2 : p ∈ buf ++ [r] := List.mem_of_mem_drop h
  rcases List.mem_append.mp h2 with h3 | h3
  · exact Or.inl h3
  · exact Or.inr (List.mem_singleton.mp h3)

/-- Shape invariant of the detection loop: every produced anomaly carries
exactly one of the two context shapes, with the window context drawn from the
bounded trailing buffer. -/
lemma detectLoop_shape (records : List Rec) (baseline : Baseline)
    (threshold : ℚ) (useIso : Bool) (model : Option IsoModel) :
    ∀ (rest : List Rec) (i : Nat) (buf : List Rec),
      (∀ k, rest[k]? = records[i + k]?) →
      buf.length ≤ 10 →
      (∀ p ∈ buf, ∃ j, j < i ∧ records[j]? = some p) →
      ∀ a ∈ detectLoop records baseline threshold useIso model i rest buf,
        (∃ (sid : String) (i2 : Nat) (cur : Rec), records[i2]? = some cur ∧
            cur.correlation_id = some sid ∧ sid ≠ "" ∧
            ∃ pos st en, a.context = some (.fullSession sid
              (sessionOf records sid) pos st en (sessionOf records sid).length)) ∨
        (∃ (i2 : Nat) (cur : Rec), records[i2]? = some cur ∧
            truthyStr cur.correlation_id = false ∧
            ∃ buf2, a.context = some (.windowBased buf2 cur
                ((records.drop (i2 + 1)).take 10) i2) ∧
              buf2.length ≤ 10 ∧
              ∀ p ∈ buf2, ∃ j, j < i2 ∧ records[j]? = some p) := by
  intro rest
  induction rest with
  | nil =>
      intro i buf _ _ _ a ha
      simp [detectLoop] at ha
  | cons r rest ih =>
      intro i buf hidx hbl hbm a ha
      have hr : records[i]? = some r := by
        have := hidx 0
        simpa using this.symm
      have hidx2 : ∀ k, rest[k]? = records[i + 1 + k]? := by
        intro k
        have := hidx (k + 1)
        rw [List.getElem?_cons_succ] at this
        rwa [show i + (k + 1) = i + 1 + k by omega] at this
      have hbl2 : (pushBuffer buf r).length ≤ 10 := pushBuffer_length_le _ _ hbl
      have hbm2 : ∀ p ∈ pushBuffer buf r, ∃ j, j < i + 1 ∧ records[j]? = some p := by
        intro p hp
        rcases mem_pushBuffer _ _ _ hp with hp2 | hp2
        · obtain ⟨j, hj, hj2⟩ := hbm p hp2
          exact ⟨j, by omega, hj2⟩
        · exact ⟨i, by omega, hp2 ▸ hr⟩
      have htail := ih (i + 1) (pushBuffer buf r) hidx2 hbl2 hbm2
      simp only [detectLoop] at ha
      cases hsel : selectAnomaly baseline threshold useIso model r with
      | none =>
          rw [hsel] at ha
          exact htail a ha
      | some a0 =>
          rw [hsel] at ha
          rcases List.mem_cons.mp ha with rfl | ha2
          · clear ha
            unfold attachContext
            cases hcid : r.correlation_id with
            | none =>
                refine Or.inr ⟨i, r, hr, by simp [truthyStr, hcid], buf, ?_, hbl, hbm⟩
                simp
            | some sid =>
                by_cases hcond : sid ≠ "" ∧ sessionOf records sid ≠ []
                · refine Or.inl ⟨sid, i, r, hr, hcid, hcond.1, ?_⟩
                  refine ⟨(sessionOf records sid).indexOf r,
                    (sessionOf records sid).head?.bind (·.timestamp),
                    (sessionOf records sid).getLast?.bind (·.timestamp), ?_⟩
                  simp [hcond]
                · have hsid : sid = "" := by
                    by_contra hne2
                    apply hcond ⟨hne2, ?_⟩
                    refine List.ne_nil_of_mem (a := r) ?_
                    refine List.mem_filter.mpr ⟨mem_of_index hr, ?_⟩
                    simp [hcid]
                  refine Or.inr ⟨i, r, hr, by simp [truthyStr, hcid, hsid], buf,
                    ?_, hbl, hbm⟩
                  simp [hcond]
          · exact htail a ha2

/-! ## Round-trip helper lemmas for persistence -/

lemma decodeEntry_encodeEntry (e : BaselineEntry) :
    decodeEntry (encodeEntry e) = some e := rfl

lemma decodeFields_encode (l : Baseline) :
    decodeFields (l.map fun te => (te.1, encodeEntry te.2)) = some l := by
  induction l with
  | nil => rfl
  | cons hd tl ih =>
      simp [decodeFields, decodeEntry_encodeEntry, ih]

lemma decodeBaseline_encodeBaseline (l : Baseline) :
    decodeBaseline (encodeBaseline l) = some l := by
  simp [decodeBaseline, encodeBaseline, decodeFields_encode]

end LogAnalyzer

namespace LogAnalyzer

/-! ## Claims -/

/-- C1 (counterexample): a template observed exactly 5 times in the corpus,
one observation with a missing duration (which the claim says is coerced to 0
and appended), does **not** appear in the baseline mapping: `_process_record`
skips falsy durations, so only 4 samples accumulate. -/
theorem c1_min_sample_counterexample :
    observedTimes "hello"
        [⟨none, none, some "hello", some 7, none⟩,
         ⟨none, none, some "hello", some 7, none⟩,
         ⟨none, none, some "hello", some 7, none⟩,
         ⟨none, none, some "hello", some 7, none⟩,
         ⟨none, none, some "hello", none, none⟩] = 5 ∧
    "hello" ∉ baselineTemplates (calculate_baseline_stats
        [⟨none, none, some "hello", some 7, none⟩,
         ⟨none, none, some "hello", some 7, none⟩,
         ⟨none, none, some "hello", some 7, none⟩,
         ⟨none, none, some "hello", some 7, none⟩,
         ⟨none, none, some "hello", none, none⟩]) := by
  constructor
  · decide
  · decide

/-- C1 (amended): a template observed exactly 4 times never appears in the
baseline mapping; a template observed exactly 5 times appears provided every
observing record also has a truthy (non-zero, present) duration — records with
an absent or zero duration are skipped by `_process_record` and do not count
toward the minimum sample size of 5. -/
theorem c1_min_sample_amended (records : List Rec) (t : String) :
    (observedTimes t records = 4 →
      t ∉ baselineTemplates (calculate_baseline_stats records)) ∧
    (observedTimes t records = 5 →
      (∀ r ∈ records, observesT t r = true → r.duration_ms.getD 0 ≠ 0) →
      t ∈ baselineTemplates (calculate_baseline_stats records)) := by
  have hnd : (((records.foldl process_record ⟨[], []⟩).template_durations.map
      Prod.fst)).Nodup := nodup_keys_foldl records ⟨[], []⟩ (by simp)
  have hmem := mem_buildStats_keys
    (records.foldl process_record ⟨[], []⟩).template_durations t hnd
  have hlen := lookupDur_foldl records ⟨[], []⟩ t
  simp only [lookupDur, List.length_nil] at hlen
  constructor
  · intro h4
    intro hmem2
    have hle : records.countP (contributesT t) ≤ records.countP (observesT t) := by
      refine List.countP_mono_left ?_
      intro r _ hc
      have := contributesT_eq_observesT_and t r
      rw [hc] at this
      exact (Bool.and_eq_true _ _).mp this.symm |>.1
    have : 5 ≤ records.countP (contributesT t) := by
      have := (hmem.mp (by simpa [calculate_baseline_stats] using hmem2))
      omega
    have h4e : records.countP (observesT t) = 4 := h4
    omega
  · intro h5 hdur
    have hc : records.countP (contributesT t) = records.countP (observesT t) := by
      refine List.countP_congr ?_
      intro r hr
      rw [contributesT_eq_observesT_and t r]
      constructor
      · intro hc2
        exact ((Bool.and_eq_true _ _).mp hc2).1
      · intro ho
        rw [ho, Bool.true_and]
        simpa using hdur r hr ho
    have h5e : records.countP (observesT t) = 5 := h5
    have : 5 ≤ (lookupDur (records.foldl process_record ⟨[], []⟩).template_durations t).length := by
      omega
    simpa [calculate_baseline_stats] using hmem.mpr this

/-- C1 witness: with all five durations present and non-zero the template
enters the baseline; with only four observations it does not. -/
theorem c1_min_sample_witness :
    "hello" ∉ baselineTemplates (calculate_baseline_stats
        [⟨none, none, some "hello", some 7, none⟩,
         ⟨none, none, some "hello", some 7, none⟩,
         ⟨none, none, some "hello", some 7, none⟩,
         ⟨none, none, some "hello", some 7, none⟩]) ∧
    "hello" ∈ baselineTemplates (calculate_baseline_stats
        [⟨none, none, some "hello", some 7, none⟩,
         ⟨none, none, some "hello", some 7, none⟩,
         ⟨none, none, some "hello", some 7, none⟩,
         ⟨none, none, some "hello", some 7, none⟩,
         ⟨none, none, some "hello", some 7, none⟩]) :=
  ⟨(c1_min_sample_amended _ "hello").1 (by decide),
   (c1_min_sample_amended _ "hello").2 (by decide) (by decide)⟩

/-- C2 (counterexample): on the code, the generic `{num}` pass runs *before* the
UUID and timestamp passes, so a message containing the ISO date-time
`2024-01-15T10:30:00` is **not** rewritten to `{timestamp}`, and a message
containing the canonical all-digit UUID `12345678-1234-1234-1234-123456789012`
is **not** rewritten to `{uuid}`. -/
theorem c2_num_pass_preempts_counterexample :
    extract_template "Error at 2024-01-15T10:30:00" ≠ "Error at {timestamp}" ∧
    extract_template "id 12345678-1234-1234-1234-123456789012" ≠ "id {uuid}" := by
  decide

/-- C2 (amended): the `{num}` pass runs first, so the UUID and timestamp
passes match against the already-substituted text rather than the original
digit sequences, and the prior substitution can prevent the placeholders: the
ISO date-time in `"Error at 2024-01-15T10:30:00"` is not replaced (the result
is `"Error at {num}-{num}-15T10:{num}:{num}"`), and the word-boundary-delimited
all-digit UUID in `"id 12345678-1234-1234-1234-123456789012"` is not replaced
(the result is `"id {num}-{num}-{num}-{num}-{num}"`).  A UUID the `{num}` pass
happens to leave intact is still rewritten: one whose groups all contain
letters (`"id a1b2c3d4-e5f6-789a-bcde-f0123456789a"` gives `"id {uuid}"`), and
one whose all-digit group is shielded from `\b\d+\b` by an adjacent word
character (`"x12345678-abcd-efab-cdef-abcdefabcdef"` gives `"x{uuid}"`). -/
theorem c2_num_pass_preempts_amended :
    extract_template "Error at 2024-01-15T10:30:00"
      = "Error at {num}-{num}-15T10:{num}:{num}" ∧
    extract_template "id 12345678-1234-1234-1234-123456789012"
      = "id {num}-{num}-{num}-{num}-{num}" ∧
    extract_template "id a1b2c3d4-e5f6-789a-bcde-f0123456789a" = "id {uuid}" ∧
    extract_template "x12345678-abcd-efab-cdef-abcdefabcdef" = "x{uuid}" := by
  decide

/-- C3 (counterexample): `extract_template` is not idempotent — on `"10x123"`
a second application changes the result again. -/
theorem c3_idempotence_counterexample :
    extract_template (extract_template "10x123") ≠ extract_template "10x123" := by
  decide

/-- C3 (amended): `extract_template` is not idempotent.  The `{hex}` pass can
consume the tail of a digit run that the `{num}` pass had to skip (no word
boundary), and the inserted `{hex}` text then exposes a
boundary-delimited digit run that a second application rewrites:
`"10x123"` maps to `"1{hex}"`, whose image is `"{num}{hex}"`. -/
theorem c3_idempotence_amended :
    extract_template "10x123" = "1{hex}" ∧
    extract_template "1{hex}" = "{num}{hex}" := by
  decide

/-- C10: `_process_record` leaves both accumulators unchanged whenever the
record's duration is absent or zero (falsy), and likewise whenever its message
is absent or empty: only records with both fields truthy contribute. -/
theorem c10_falsy_duration_skipped (acc : BaselineAcc) (r : Rec)
    (h : r.duration_ms.getD 0 = 0 ∨ r.message.getD "" = "") :
    process_record acc r = acc := by
  unfold process_record
  rcases h with h | h <;> simp [h]

/-- C10 witness: a record with an absent duration contributes nothing. -/
theorem c10_falsy_duration_skipped_witness :
    process_record ⟨[], []⟩ ⟨none, none, some "User 7 logged in", none, none⟩
      = ⟨[], []⟩ :=
  c10_falsy_duration_skipped _ _ (Or.inl (by decide))

/-- C6: a record with a truthy message whose template is absent from the
baseline always yields the `NEW_PATTERN` anomaly with severity `MEDIUM` and
`z_score = none`, whatever its duration. -/
theorem c6_new_pattern (r : Rec) (baseline : Baseline) (threshold : ℚ)
    (hm : r.message.getD "" ≠ "")
    (hl : lookupBaseline baseline (extract_template (r.message.getD "")) = none) :
    check_record_for_anomaly r baseline threshold =
      some { timestamp := r.timestamp, level := r.level.getD "INFO",
             message := r.message.getD "", template := extract_template (r.message.getD ""),
             duration := r.duration_ms.getD 0, expected_mean := none,
             expected_std := none, z_score := none, anomaly_type := .NEW_PATTERN,
             severity := .MEDIUM, isolation_score := none, context := none } := by
  unfold check_record_for_anomaly
  simp [hm, hl]

/-- C6 witness: an unseen template with duration 0 is still surfaced as
`NEW_PATTERN`/`MEDIUM`. -/
theorem c6_new_pattern_witness :
    check_record_for_anomaly ⟨none, none, some "cache warmup", none, none⟩ [] 3 =
      some { timestamp := none, level := "INFO", message := "cache warmup",
             template := extract_template "cache warmup", duration := 0,
             expected_mean := none, expected_std := none, z_score := none,
             anomaly_type := .NEW_PATTERN, severity := .MEDIUM,
             isolation_score := none, context := none } :=
  c6_new_pattern _ _ _ (by decide) (by decide)

/-- C5: when the record's template is present in the baseline with a zero
standard deviation, the Z-score detector returns no anomaly for every duration,
and (instrumented branch mirror) the z-score division is never reached with a
zero divisor. -/
theorem c5_zero_std_no_anomaly :
    (∀ (r : Rec) (baseline : Baseline) (threshold : ℚ) (st : BaselineEntry),
        r.message.getD "" ≠ "" →
        lookupBaseline baseline (extract_template (r.message.getD "")) = some st →
        st.std_dev = 0 →
        check_record_for_anomaly r baseline threshold = none) ∧
    (∀ (r : Rec) (baseline : Baseline), zscoreDividesByZero r baseline = false) := by
  constructor
  · intro r baseline threshold st hm hl hs
    unfold check_record_for_anomaly
    simp [hm, hl, hs]
  · intro r baseline
    unfold zscoreDividesByZero
    by_cases hm : r.message.getD "" = ""
    · simp [hm]
    · simp only [hm]
      cases hl : lookupBaseline baseline (extract_template (r.message.getD "")) with
      | none => simp [hm]
      | some st =>
          by_cases hs : st.std_dev = 0 <;> simp [hm, hs]

/-- C5 witness: a degenerate-distribution template (`std_dev = 0`) produces no
anomaly even for a wildly deviating duration. -/
theorem c5_zero_std_no_anomaly_witness :
    check_record_for_anomaly ⟨none, none, some "ping", some 1000000, none⟩
      [("ping", ⟨5, 100, 0, 100, 100, 100, 100, 100⟩)] 3 = none :=
  c5_zero_std_no_anomaly.1 _ _ _ ⟨5, 100, 0, 100, 100, 100, 100, 100⟩
    (by decide) (by decide) (by decide)

/-- C4: for a record whose template has baseline statistics with non-zero
standard deviation, whenever the absolute z-score exceeds the threshold the
detector emits an anomaly carrying exactly that z-score, typed
`DURATION_SPIKE` for positive z and `DURATION_DROP` for negative z, with
severity `HIGH` exactly when `|z| > 5`; in particular, with baseline
`mean = 100, std_dev = 10` and threshold 3, duration 135 yields `z = 3.5`,
`DURATION_SPIKE`, `MEDIUM`, and duration 155 yields `z = 5.5`, `HIGH`. -/
theorem c4_zscore_classification :
    (∀ (r : Rec) (baseline : Baseline) (threshold : ℚ) (st : BaselineEntry),
        r.message.getD "" ≠ "" →
        lookupBaseline baseline (extract_template (r.message.getD "")) = some st →
        st.std_dev ≠ 0 →
        ratAbs ((r.duration_ms.getD 0 - st.mean) / st.std_dev) > threshold →
        ∃ a, check_record_for_anomaly r baseline threshold = some a ∧
          a.z_score = some ((r.duration_ms.getD 0 - st.mean) / st.std_dev) ∧
          (0 < (r.duration_ms.getD 0 - st.mean) / st.std_dev →
            a.anomaly_type = .DURATION_SPIKE) ∧
          ((r.duration_ms.getD 0 - st.mean) / st.std_dev < 0 →
            a.anomaly_type = .DURATION_DROP) ∧
          (a.severity = .HIGH ↔ 5 < ratAbs ((r.duration_ms.getD 0 - st.mean) / st.std_dev))) ∧
    check_record_for_anomaly ⟨none, none, some "svc call", some 135, none⟩
        [("svc call", ⟨5, 100, 10, 90, 110, 100, 100, 100⟩)] 3 =
      some { timestamp := none, level := "INFO", message := "svc call",
             template := "svc call", duration := 135, expected_mean := some 100,
             expected_std := some 10, z_score := some (7/2),
             anomaly_type := .DURATION_SPIKE, severity := .MEDIUM,
             isolation_score := none, context := none } ∧
    check_record_for_anomaly ⟨none, none, some "svc call", some 155, none⟩
        [("svc call", ⟨5, 100, 10, 90, 110, 100, 100, 100⟩)] 3 =
      some { timestamp := none, level := "INFO", message := "svc call",
             template := "svc call", duration := 155, expected_mean := some 100,
             expected_std := some 10, z_score := some (11/2),
             anomaly_type := .DURATION_SPIKE, severity := .HIGH,
             isolation_score := none, context := none } := by
  refine ⟨?_, by decide, by decide⟩
  intro r baseline threshold st hm hl hs hz
  unfold check_record_for_anomaly
  simp only [hm, ne_eq, not_false_iff, if_neg hm, hl, if_neg hs, gt_iff_lt, hz,
    if_pos hz]
  refine ⟨_, rfl, rfl, ?_, ?_, ?_⟩
  · intro h0
    simp [gt_iff_lt, h0]
  · intro h0
    simp [gt_iff_lt, not_lt.mpr (le_of_lt h0)]
  · by_cases h5 : (5 : ℚ) < ratAbs ((r.duration_ms.getD 0 - st.mean) / st.std_dev) <;>
      simp [gt_iff_lt, h5]

/-- C4 witness: instantiating the general classification at the
`mean = 100, std_dev = 10`, duration-135 record. -/
theorem c4_zscore_classification_witness :
    ∃ a, check_record_for_anomaly ⟨none, none, some "svc call", some 135, none⟩
        [("svc call", ⟨5, 100, 10, 90, 110, 100, 100, 100⟩)] 3 = some a ∧
      a.z_score = some ((135 - 100) / 10 : ℚ) ∧
      (0 < ((135 - 100) / 10 : ℚ) → a.anomaly_type = .DURATION_SPIKE) ∧
      (((135 - 100) / 10 : ℚ) < 0 → a.anomaly_type = .DURATION_DROP) ∧
      (a.severity = .HIGH ↔ 5 < ratAbs ((135 - 100) / 10 : ℚ)) :=
  c4_zscore_classification.1
    ⟨none, none, some "svc call", some 135, none⟩
    [("svc call", ⟨5, 100, 10, 90, 110, 100, 100, 100⟩)] 3
    ⟨5, 100, 10, 90, 110, 100, 100, 100⟩
    (by decide) (by decide) (by decide) (by decide)

/-- C7: when both detectors fire for one record the Z-score result is the one
kept — the isolation-forest result is used only when the Z-score check returns
nothing — and each record contributes at most one anomaly to the output of
`detect_anomalies` (its per-record step appends exactly the Z-score anomaly,
with context, when both fire). -/
theorem c7_zscore_precedence :
    (∀ (baseline : Baseline) (threshold : ℚ) (m : IsoModel) (r : Rec)
        (az ai : Anomaly),
        m.is_trained = true →
        check_record_for_anomaly r baseline threshold = some az →
        check_isolation_forest_anomaly r baseline m = some ai →
        selectAnomaly baseline threshold true (some m) r = some az) ∧
    (∀ (baseline : Baseline) (threshold : ℚ) (m : IsoModel) (r : Rec),
        m.is_trained = true →
        check_record_for_anomaly r baseline threshold = none →
        selectAnomaly baseline threshold true (some m) r =
          check_isolation_forest_anomaly r baseline m) ∧
    (∀ (records : List Rec) (baseline : Baseline) (threshold : ℚ)
        (useIso : Bool) (model : Option IsoModel) (i : Nat) (rest buf : List Rec),
        (detectLoop records baseline threshold useIso model i rest buf).length ≤
          rest.length) ∧
    (∀ (records : List Rec) (baseline : Baseline) (threshold : ℚ) (m : IsoModel)
        (i : Nat) (buf : List Rec) (r : Rec) (rest : List Rec) (az ai : Anomaly),
        m.is_trained = true →
        check_record_for_anomaly r baseline threshold = some az →
        check_isolation_forest_anomaly r baseline m = some ai →
        detectLoop records baseline threshold true (some m) i (r :: rest) buf =
          attachContext records i buf r az ::
            detectLoop records baseline threshold true (some m) (i + 1) rest
              (pushBuffer buf r)) := by
  have h1 : ∀ (baseline : Baseline) (threshold : ℚ) (m : IsoModel) (r : Rec)
      (az ai : Anomaly),
      m.is_trained = true →
      check_record_for_anomaly r baseline threshold = some az →
      check_isolation_forest_anomaly r baseline m = some ai →
      selectAnomaly baseline threshold true (some m) r = some az := by
    intro baseline threshold m r az ai ht hz hi
    simp [selectAnomaly, ht, hz, hi]
  refine ⟨h1, ?_, ?_, ?_⟩
  · intro baseline threshold m r ht hz
    cases hio : check_isolation_forest_anomaly r baseline m <;>
      simp [selectAnomaly, ht, hz, hio]
  · intro records baseline threshold useIso model i rest buf
    induction rest generalizing i buf with
    | nil => simp [detectLoop]
    | cons r rest ih =>
        simp only [detectLoop]
        cases hsel : selectAnomaly baseline threshold useIso model r with
        | none =>
            simpa using Nat.le_succ_of_le (ih (i + 1) (pushBuffer buf r))
        | some a0 =>
            simpa using Nat.succ_le_succ (ih (i + 1) (pushBuffer buf r))
  · intro records baseline threshold m i buf r rest az ai ht hz hi
    simp only [detectLoop, h1 baseline threshold m r az ai ht hz hi]

/-- C7 witness: with a trained model flagging everything, a record that also
trips the Z-score check is reported with the Z-score anomaly, not the
isolation-forest one. -/
theorem c7_zscore_precedence_witness :
    selectAnomaly [("svc call", ⟨5, 100, 10, 90, 110, 100, 100, 100⟩)] 3 true
        (some ⟨true, fun _ => -1, fun _ => -1⟩)
        ⟨none, none, some "svc call", some 155, none⟩ =
      some { timestamp := none, level := "INFO", message := "svc call",
             template := "svc call", duration := 155, expected_mean := some 100,
             expected_std := some 10, z_score := some (11/2),
             anomaly_type := .DURATION_SPIKE, severity := .HIGH,
             isolation_score := none, context := none } :=
  c7_zscore_precedence.1 [("svc call", ⟨5, 100, 10, 90, 110, 100, 100, 100⟩)] 3
    ⟨true, fun _ => -1, fun _ => -1⟩
    ⟨none, none, some "svc call", some 155, none⟩
    { timestamp := none, level := "INFO", message := "svc call",
      template := "svc call", duration := 155, expected_mean := some 100,
      expected_std := some 10, z_score := some (11/2),
      anomaly_type := .DURATION_SPIKE, severity := .HIGH,
      isolation_score := none, context := none }
    { timestamp := none, level := "INFO", message := "svc call",
      template := "svc call", duration := 155, expected_mean := some 100,
      expected_std := none, z_score := none,
      anomaly_type := .ISOLATION_FOREST_ANOMALY, severity := .HIGH,
      isolation_score := some (-1), context := none }
    rfl (by decide) (by decide)

/-- C8: every anomaly returned by `detect_anomalies` carries exactly one
context shape: a `FULL_SESSION` context whose session list is all records of
the stream carrying the record's (non-empty) session id and whose
`total_logs_in_session` is that list's length, or — when the record's session
id is falsy — a `WINDOW_BASED` context whose `previous_logs` hold at most 10
records, all from strictly earlier stream positions than the anomalous record. -/
theorem c8_exactly_one_context (records : List Rec) (baseline : Baseline)
    (threshold : ℚ) (useIso : Bool) (model : Option IsoModel) (a : Anomaly)
    (ha : a ∈ detect_anomalies records baseline threshold useIso model) :
    (∃ (sid : String) (i2 : Nat) (cur : Rec), records[i2]? = some cur ∧
        cur.correlation_id = some sid ∧ sid ≠ "" ∧
        ∃ pos st en, a.context = some (.fullSession sid
          (sessionOf records sid) pos st en (sessionOf records sid).length)) ∨
    (∃ (i2 : Nat) (cur : Rec), records[i2]? = some cur ∧
        truthyStr cur.correlation_id = false ∧
        ∃ buf2, a.context = some (.windowBased buf2 cur
            ((records.drop (i2 + 1)).take 10) i2) ∧
          buf2.length ≤ 10 ∧
          ∀ p ∈ buf2, ∃ j, j < i2 ∧ records[j]? = some p) := by
  refine detectLoop_shape records baseline threshold useIso model records 0 []
    ?_ ?_ ?_ a ha
  · intro k
    simp
  · simp
  · simp

/-- C8 witness: a one-record stream without session id produces an anomaly
with the window-based shape. -/
theorem c8_exactly_one_context_witness :
    (∃ (sid : String) (i2 : Nat) (cur : Rec), demoStream[i2]? = some cur ∧
        cur.correlation_id = some sid ∧ sid ≠ "" ∧
        ∃ pos st en, demoAnomaly.context = some (.fullSession sid
          (sessionOf demoStream sid) pos st en (sessionOf demoStream sid).length)) ∨
    (∃ (i2 : Nat) (cur : Rec), demoStream[i2]? = some cur ∧
        truthyStr cur.correlation_id = false ∧
        ∃ buf2, demoAnomaly.context = some (.windowBased buf2 cur
            ((demoStream.drop (i2 + 1)).take 10) i2) ∧
          buf2.length ≤ 10 ∧
          ∀ p ∈ buf2, ∃ j, j < i2 ∧ demoStream[j]? = some p) :=
  c8_exactly_one_context demoStream [] 3 false none demoAnomaly (by decide)

/-- C9: saving a baseline mapping and loading it back from the same path
returns exactly the saved mapping. -/
theorem c9_persistence_roundtrip (fs : FS) (path : String) (stats : Baseline)
    (_hne : stats ≠ []) :
    load_baseline_stats (save_baseline_stats fs path stats) path = some stats := by
  unfold load_baseline_stats save_baseline_stats
  simp [decodeBaseline_encodeBaseline]

/-- C9 witness: round-trip of a concrete one-template baseline through an
empty filesystem. -/
theorem c9_persistence_roundtrip_witness :
    load_baseline_stats
      (save_baseline_stats (fun _ => none) "baseline_stats.json"
        [("svc call", ⟨5, 100, 10, 90, 110, 100, 100, 100⟩)])
      "baseline_stats.json"
      = some [("svc call", ⟨5, 100, 10, 90, 110, 100, 100, 100⟩)] :=
  c9_persistence_roundtrip _ _ _ (by decide)

end LogAnalyzer
